import Mathlib

/-!
Verification of the PDF-export core of the streamlit dashboard app
(`src/app.py`).  Python strings are shallowly embedded as lists of Unicode
code points (`Str := List Nat`); the stateful FPDF document is embedded as
the ordered list of elements written into it; the filesystem side effects
of the report builder are embedded as the list of temp-file names existing
when the build call returns; wall-clock readings are passed explicitly.
-/

set_option maxRecDepth 10000

/-- A Python string, as its list of Unicode code points. -/
abbrev Str := List Nat

/-- Code points of a Lean string literal (used to transcribe the literals of
the Python source). -/
def strCodes (s : String) : Str := s.data.map Char.toNat

/-- One `text.replace(pat, repl)` pass of `clean_text_for_pdf` for a
single-code-point pattern `pat` (every pattern in the source table is a
single code point). -/
def replaceChar (pat : Nat) (repl : Str) (s : Str) : Str :=
  (s.map (fun c => if c = pat then repl else [c])).flatten

/-- The ordered replacement table of `clean_text_for_pdf`
(src/app.py lines 219-228).  `chr(149)` is code point 149. -/
def replacements : List (Nat × Str) :=
  [ (0x2022, [149]),
    (0x2013, strCodes "-"),
    (0x2014, strCodes "--"),
    (0x2018, strCodes "'"),
    (0x2019, strCodes "'"),
    (0x201C, strCodes "\""),
    (0x201D, strCodes "\""),
    (0x2026, strCodes "...") ]

/-- The `for unicode_char, replacement in replacements.items(): text =
text.replace(...)` loop (src/app.py lines 230-231). -/
def applyReplacements (s : Str) : Str :=
  replacements.foldl (fun t pr => replaceChar pr.1 pr.2 t) s

/-- Effect of `text.encode('latin-1', errors='replace').decode('latin-1')`
on one code point: code points above 255 become `'?'` (63). -/
def latin1Replace (c : Nat) : Nat := if c ≤ 255 then c else 63

/-- `clean_text_for_pdf` (src/app.py lines 213-239): substitution table,
then `encode('latin-1')` which succeeds iff every code point is at most
255; on failure every unencodable code point is replaced by `'?'`. -/
def clean_text_for_pdf (text : Str) : Str :=
  if text = [] then text
  else
    let t := applyReplacements text
    if ∀ c ∈ t, c ≤ 255 then t else t.map latin1Replace

/-- `clean_text_for_pdf` applied to an optional (possibly `None`) argument:
`if not text: return text` returns `None` unchanged. -/
def clean_text_opt : Option Str → Option Str
  | none => none
  | some s => some (clean_text_for_pdf s)

/-- The substitution table read as a per-code-point function (the spec's
simultaneous literal find/replace view of lines 219-228). -/
def substTable (c : Nat) : Str :=
  if c = 0x2022 then [149]
  else if c = 0x2013 then strCodes "-"
  else if c = 0x2014 then strCodes "--"
  else if c = 0x2018 then strCodes "'"
  else if c = 0x2019 then strCodes "'"
  else if c = 0x201C then strCodes "\""
  else if c = 0x201D then strCodes "\""
  else if c = 0x2026 then strCodes "..."
  else [c]

/-- Decimal digits of a natural number, most significant first. -/
def natStr (n : Nat) : Str := (Nat.toDigits 10 n).map Char.toNat

/-- Insert a comma (44) after every three characters of a reversed digit
string: the thousands grouping of Python's `{:,}` format. -/
def groupRev : Str → Str
  | a :: b :: c :: d :: rest => a :: b :: c :: 44 :: groupRev (d :: rest)
  | l => l

/-- Python `f"{n:,}"` for a natural number. -/
def natGrouped (n : Nat) : Str := (groupRev (natStr n).reverse).reverse

/-- Left-pad a string with `'0'` (48) to width `k`. -/
def padZeros (k : Nat) (s : Str) : Str :=
  List.replicate (k - s.length) 48 ++ s

/-- Two-digit zero-padded number (strftime `%d`, `%m`, `%H`, `%M`, `%I`). -/
def pad2 (n : Nat) : Str := padZeros 2 (natStr n)

/-- Four-digit zero-padded number (strftime `%Y`). -/
def pad4 (n : Nat) : Str := padZeros 4 (natStr n)

/-- Build a rational from numerator and denominator.  (The kernel reduces
`mkRat`, unlike the `@[irreducible]` field operations of `ℚ`, so the model
uses it for all rational arithmetic.) -/
def qmk (n : Int) (d : Nat) : ℚ := mkRat n d

/-- Exact rational addition (models float addition of the currency values;
the synthetic data is exactly representable at this scale). -/
def qadd (a b : ℚ) : ℚ := qmk (a.num * b.den + b.num * a.den) (a.den * b.den)

/-- `pandas.Series.sum()` on a rational-valued column. -/
def qsum (l : List ℚ) : ℚ := l.foldl qadd (qmk 0 1)

/-- Division of a rational by a natural number (`Series.mean()` divides the
sum by the length). -/
def qdivNat (x : ℚ) (n : Nat) : ℚ := qmk x.num (x.den * n)

/-- `round (k * x)` for a rational `x`, computed on numerator and
denominator (`/` on `Int` is Euclidean division, i.e. the floor for the
positive denominator).  Python rounds the underlying binary float
half-to-even; the claims under proof never evaluate this at a tie. -/
def roundScaled (k : Nat) (x : ℚ) : Int :=
  (2 * k * x.num + x.den) / (2 * x.den)

/-- Python `f"{x:,.2f}"` on the rational model of a float: rounded to two
decimals, grouped integer part, exactly two fractional digits. -/
def fmtMoney2 (x : ℚ) : Str :=
  let c : Int := roundScaled 100 x
  let n := c.natAbs
  let s := natGrouped (n / 100) ++ [46] ++ pad2 (n % 100)
  if c < 0 then 45 :: s else s

/-- Python `f"{x:,.0f}"` on the rational model of a float. -/
def fmtMoney0 (x : ℚ) : Str :=
  let c : Int := roundScaled 1 x
  let s := natGrouped c.natAbs
  if c < 0 then 45 :: s else s

/-- Python `f"{x}"` for the one-decimal product ratings: integer part, a
dot, one fractional digit (the `str()` of the one-decimal floats this app
produces). -/
def ratingStr (x : ℚ) : Str :=
  let t : Int := roundScaled 10 x
  let n := t.natAbs
  let s := natStr (n / 10) ++ [46] ++ natStr (n % 10)
  if t < 0 then 45 :: s else s

/-- strftime `%B`: full English month name. -/
def monthName (m : Nat) : Str :=
  if m = 1 then strCodes "January"
  else if m = 2 then strCodes "February"
  else if m = 3 then strCodes "March"
  else if m = 4 then strCodes "April"
  else if m = 5 then strCodes "May"
  else if m = 6 then strCodes "June"
  else if m = 7 then strCodes "July"
  else if m = 8 then strCodes "August"
  else if m = 9 then strCodes "September"
  else if m = 10 then strCodes "October"
  else if m = 11 then strCodes "November"
  else if m = 12 then strCodes "December"
  else []

/-- A calendar date (the `Date` column of the sales dataset). -/
structure DateYMD where
  year : Nat
  month : Nat
  day : Nat
deriving DecidableEq

/-- strftime `'%B %d'` (src/app.py line 125, first date). -/
def fmtMonthDay (d : DateYMD) : Str :=
  monthName d.month ++ [32] ++ pad2 d.day

/-- strftime `'%B %d, %Y'` (src/app.py line 125, second date). -/
def fmtMonthDayYear (d : DateYMD) : Str :=
  monthName d.month ++ [32] ++ pad2 d.day ++ strCodes ", " ++ natStr d.year

/-- A wall-clock reading returned by `datetime.datetime.now()`. -/
structure Timestamp where
  year : Nat
  month : Nat
  day : Nat
  hour : Nat
  minute : Nat
deriving DecidableEq

/-- strftime `%I`: 12-hour clock hour. -/
def hour12 (h : Nat) : Nat := if h % 12 = 0 then 12 else h % 12

/-- strftime `'%B %d, %Y at %I:%M %p'` (src/app.py line 115). -/
def fmtLong (t : Timestamp) : Str :=
  monthName t.month ++ [32] ++ pad2 t.day ++ strCodes ", " ++ natStr t.year
    ++ strCodes " at " ++ pad2 (hour12 t.hour) ++ [58] ++ pad2 t.minute
    ++ [32] ++ (if t.hour < 12 then strCodes "AM" else strCodes "PM")

/-- strftime `'%Y-%m-%d %H:%M'` (src/app.py line 32, the footer timestamp). -/
def footerStrftime (t : Timestamp) : Str :=
  pad4 t.year ++ [45] ++ pad2 t.month ++ [45] ++ pad2 t.day
    ++ [32] ++ pad2 t.hour ++ [58] ++ pad2 t.minute

/-- Python `str.isspace` characters relevant to `str.strip()`. -/
def isPySpace (c : Nat) : Bool :=
  c == 32 || c == 9 || c == 10 || c == 13 || c == 11 || c == 12

/-- Python `str.strip()`: drop leading and trailing whitespace. -/
def pyStrip (s : Str) : Str :=
  ((s.dropWhile isPySpace).reverse.dropWhile isPySpace).reverse

/-- One row of the sales dataset (columns Date, Revenue, Orders,
Customers; src/app.py lines 40-45). -/
structure SalesRecord where
  date : DateYMD
  revenue : ℚ
  orders : Nat
  customers : Nat
deriving DecidableEq

/-- One row of the product dataset (columns Product, Sales, Units Sold,
Rating; src/app.py lines 49-54). -/
structure ProductRecord where
  product : Str
  sales : ℚ
  unitsSold : Nat
  rating : ℚ
deriving DecidableEq

/-- Lexicographic date comparison (pandas orders the datetime column
chronologically). -/
def dateLeB (a b : DateYMD) : Bool :=
  decide (a.year < b.year) ||
    (a.year == b.year &&
      (decide (a.month < b.month) || (a.month == b.month && a.day ≤ b.day)))

/-- `Series.min()` on the Date column; `none` models the `NaT` an empty
column yields, on which the subsequent `.strftime` raises. -/
def dateMin : List DateYMD → Option DateYMD
  | [] => none
  | d :: t => some (t.foldl (fun acc x => if dateLeB x acc then x else acc) d)

/-- `Series.max()` on the Date column; `none` models `NaT` as in `dateMin`. -/
def dateMax : List DateYMD → Option DateYMD
  | [] => none
  | d :: t => some (t.foldl (fun acc x => if dateLeB acc x then x else acc) d)

/-- Scan of `Series.idxmax()`: `best` is the position of the running
maximum `bestv`, `i` the position of the head of the remaining list; a
later element takes over only when strictly greater, so the first maximal
position wins. -/
def idxmaxAux : Nat → ℚ → Nat → List ℚ → Nat
  | best, _, _, [] => best
  | best, bestv, i, v :: t =>
    if bestv < v then idxmaxAux i v (i + 1) t else idxmaxAux best bestv (i + 1) t

/-- `pandas.Series.idxmax()` on a positionally indexed column: position of
the first occurrence of the maximum; `none` models the `ValueError`
("attempt to get argmax of an empty sequence") raised on an empty column. -/
def idxmax : List ℚ → Option Nat
  | [] => none
  | v :: t => some (idxmaxAux 0 v 1 t)

/-- `product_data.loc[product_data['Sales'].idxmax(), 'Product']`
(src/app.py line 132). -/
def top_product (product_data : List ProductRecord) : Option Str :=
  (idxmax (product_data.map (fun p => p.sales))).bind
    (fun i => (product_data.get? i).map (fun p => p.product))

/-- The `summary_text` f-string of src/app.py lines 124-133, followed by
the `.strip()` of line 135.  `none` models the exceptions raised on empty
input: `.strftime` on `NaT` for an empty sales column, `ValueError` from
`idxmax` for an empty product table. -/
def summary_text (sales_data : List SalesRecord)
    (product_data : List ProductRecord) : Option Str :=
  match dateMin (sales_data.map (fun r => r.date)),
        dateMax (sales_data.map (fun r => r.date)),
        top_product product_data with
  | some dmin, some dmax, some topName =>
    some (pyStrip (
      strCodes "\nThis dashboard report provides insights into business performance for the period "
      ++ fmtMonthDay dmin ++ strCodes " to " ++ fmtMonthDayYear dmax
      ++ strCodes ".\n\nKey Metrics:\n"
      ++ [149] ++ strCodes " Total Revenue: $"
        ++ fmtMoney2 (qsum (sales_data.map (fun r => r.revenue))) ++ [10]
      ++ [149] ++ strCodes " Average Daily Revenue: $"
        ++ fmtMoney2 (qdivNat (qsum (sales_data.map (fun r => r.revenue)))
             sales_data.length) ++ [10]
      ++ [149] ++ strCodes " Total Orders: "
        ++ natGrouped (sales_data.map (fun r => r.orders)).sum ++ [10]
      ++ [149] ++ strCodes " Total Customers Served: "
        ++ natGrouped (sales_data.map (fun r => r.customers)).sum ++ [10]
      ++ [149] ++ strCodes " Top Performing Product: " ++ topName ++ [10]))
  | _, _, _ => none

/-- An element written into the FPDF document: a `pdf.cell` text, a
`pdf.multi_cell` text, or a `pdf.image` embedding of a file. -/
inductive Elem where
  | cell (text : Str)
  | multiCell (text : Str)
  | image (file : Str)
deriving DecidableEq

/-- The text carried by a document element (the file name for an image). -/
def elemText : Elem → Str
  | Elem.cell t => t
  | Elem.multiCell t => t
  | Elem.image f => f

/-- Exceptions `generate_dashboard_pdf` can raise: the `ValueError` /
`NaT.strftime` failures of the summary block on empty input, and a
document-engine rejection of a chart image file (`pdf.image`). -/
inductive BuildError where
  | emptyDataError
  | imageError
deriving DecidableEq

/-- A rendered chart: its PNG bytes, and whether the document engine
accepts it (`pdf.image` raises on a malformed raster). -/
structure ChartImage where
  png : Str
  valid : Bool
deriving DecidableEq

/-- The `charts` dict produced by `create_charts` (keys `revenue_trend`
and `product_sales`). -/
structure Charts where
  revenue_trend : ChartImage
  product_sales : ChartImage
deriving DecidableEq

/-- The fixed temp-file name of src/app.py line 144. -/
def tempRevenueChart : Str := strCodes "temp_revenue_chart.png"

/-- The fixed temp-file name of src/app.py line 187. -/
def tempProductChart : Str := strCodes "temp_product_chart.png"

/-- The table header cells of src/app.py lines 163-166. -/
def tableHeader : List Elem :=
  [ Elem.cell (strCodes "Product"),
    Elem.cell (strCodes "Sales ($)"),
    Elem.cell (strCodes "Units Sold"),
    Elem.cell (strCodes "Rating") ]

/-- One product table row (src/app.py lines 171-177): sanitized name,
currency sales, grouped units, rating as-is. -/
def productRow (row : ProductRecord) : List Elem :=
  [ Elem.cell (clean_text_for_pdf row.product),
    Elem.cell (strCodes "$" ++ fmtMoney0 row.sales),
    Elem.cell (natGrouped row.unitsSold),
    Elem.cell (ratingStr row.rating) ]

/-- The notes section (src/app.py lines 194-201): header cell plus the
stripped, sanitized notes. -/
def notesElems (user_notes : Str) : List Elem :=
  [ Elem.cell (strCodes "Additional Notes"),
    Elem.multiCell (clean_text_for_pdf (pyStrip user_notes)) ]

/-- The cleanup loop of src/app.py lines 205-209: best-effort
`os.remove` of the two temp files, each wrapped in `try ... except: pass`.
`removeOk` tells whether a given `os.remove` call succeeds. -/
def cleanupTempFiles (removeOk : Str → Bool) (files : List Str) : List Str :=
  [tempRevenueChart, tempProductChart].foldl
    (fun fs f => if removeOk f then fs.erase f else fs) files

/-- The document elements written after the title and timestamp cells, in
source order (src/app.py lines 119-201). -/
def bodyElems (product_data : List ProductRecord) (user_notes : Str)
    (stext : Str) : List Elem :=
  [ Elem.cell (strCodes "Executive Summary"),
    Elem.multiCell stext,
    Elem.cell (strCodes "Revenue Trend Analysis"),
    Elem.image tempRevenueChart,
    Elem.cell (strCodes "Product Performance") ]
  ++ tableHeader
  ++ (product_data.map productRow).flatten
  ++ [ Elem.cell (strCodes "Product Sales Comparison"),
       Elem.image tempProductChart ]
  ++ (if user_notes ≠ [] ∧ pyStrip user_notes ≠ [] then notesElems user_notes
      else [])

/-- All elements of a successfully built document, in source order. -/
def successElems (product_data : List ProductRecord) (user_notes : Str)
    (now : Timestamp) (stext : Str) : List Elem :=
  Elem.cell (strCodes "Business Dashboard Report")
    :: Elem.cell (strCodes "Report generated on: " ++ fmtLong now)
    :: bodyElems product_data user_notes stext

/-- `generate_dashboard_pdf` (src/app.py lines 104-211).  Returns the
outcome (the document's element list, or the exception that aborted the
build) together with the temp chart files still existing on disk when the
call returns.  `now` is the `datetime.now()` reading of line 115;
`removeOk` tells whether each `os.remove` of the cleanup loop succeeds.
The chart files are written at lines 144 and 187 and embedded right after;
an embedding failure propagates the exception, skipping the cleanup loop,
which runs only on the fall-through path. -/
def generate_dashboard_pdf (sales_data : List SalesRecord)
    (product_data : List ProductRecord) (user_notes : Str) (charts : Charts)
    (now : Timestamp) (removeOk : Str → Bool) :
    Except BuildError (List Elem) × List Str :=
  match summary_text sales_data product_data with
  | none => (Except.error BuildError.emptyDataError, [])
  | some stext =>
    if charts.revenue_trend.valid then
      if charts.product_sales.valid then
        (Except.ok (successElems product_data user_notes now stext),
         cleanupTempFiles removeOk [tempRevenueChart, tempProductChart])
      else (Except.error BuildError.imageError,
            [tempRevenueChart, tempProductChart])
    else (Except.error BuildError.imageError, [tempRevenueChart])

/-- The element list of a build outcome (empty on error). -/
def builtElems (r : Except BuildError (List Elem) × List Str) : List Elem :=
  match r.1 with
  | Except.ok l => l
  | Except.error _ => []

/-- The one cell drawn by `DashboardPDF.footer` (src/app.py lines 29-32):
font family, style and size from the `set_font` call, alignment from the
`cell` call, and the formatted text. -/
structure FooterCell where
  fontFamily : Str
  fontStyle : Str
  fontSize : ℚ
  align : Str
  text : Str
deriving DecidableEq

/-- `DashboardPDF.footer` for page `page_no`, where `now` is the fresh
`datetime.datetime.now()` reading made inside the method at line 32. -/
def DashboardPDF.footer (page_no : Nat) (now : Timestamp) : FooterCell :=
  { fontFamily := strCodes "Arial",
    fontStyle := strCodes "I",
    fontSize := qmk 8 1,
    align := strCodes "C",
    text := strCodes "Page " ++ natStr page_no
      ++ strCodes " - Generated on " ++ footerStrftime now }

/-- The footers of an `n`-page document: FPDF invokes `footer()` once per
page in page order, and each invocation makes its own `datetime.now()`
call; `clock i` is the reading the `i`-th invocation obtains. -/
def renderFooters (clock : Nat → Timestamp) (n : Nat) : List FooterCell :=
  (List.range n).map (fun i => DashboardPDF.footer (i + 1) (clock i))

/-- The value `pdf.output(dest='S')` hands to `get_pdf_bytes`: the PDF
document engine returns a text string, a byte string, or a bytearray
depending on its version. -/
inductive PdfOutput where
  | str (s : Str)
  | bytes (b : Str)
  | bytearray (b : Str)
deriving DecidableEq

/-- The code points / byte values carried by a `PdfOutput`. -/
def pdfOutputData : PdfOutput → Str
  | PdfOutput.str s => s
  | PdfOutput.bytes b => b
  | PdfOutput.bytearray b => b

/-- `get_pdf_bytes` (src/app.py lines 241-249): a text string is encoded
in Latin-1 (raising — modelled as `Except.error` — when some code point
exceeds 255), a bytearray is copied into bytes, bytes are returned as-is. -/
def get_pdf_bytes : PdfOutput → Except Unit Str
  | PdfOutput.str s => if ∀ c ∈ s, c ≤ 255 then Except.ok s else Except.error ()
  | PdfOutput.bytearray b => Except.ok b
  | PdfOutput.bytes b => Except.ok b

/-- A well-formed document-engine output: every code point / byte value is
at most 255.  Modelled from the spec: the document engine (FPDF) is an
external collaborator whose internal text buffer is Latin-1-clean for any
document the Report Builder produces. -/
def WellFormedPdfOutput (o : PdfOutput) : Prop :=
  ∀ c ∈ pdfOutputData o, c ≤ 255

theorem clean_text_le (s : Str) : ∀ c ∈ clean_text_for_pdf s, c ≤ 255 := by
  intro c hc
  simp only [clean_text_for_pdf] at hc
  split at hc
  · rename_i h
    subst h
    simp at hc
  · split at hc
    · rename_i h
      exact h c hc
    · rcases List.mem_map.mp hc with ⟨d, _, rfl⟩
      simp only [latin1Replace]
      split
      · assumption
      · omega

theorem replaceChar_append (p : Nat) (r a b : Str) :
    replaceChar p r (a ++ b) = replaceChar p r a ++ replaceChar p r b := by
  simp [replaceChar]

theorem foldRepl_append (rs : List (Nat × Str)) :
    ∀ a b : Str,
      rs.foldl (fun t pr => replaceChar pr.1 pr.2 t) (a ++ b)
        = rs.foldl (fun t pr => replaceChar pr.1 pr.2 t) a
          ++ rs.foldl (fun t pr => replaceChar pr.1 pr.2 t) b := by
  induction rs with
  | nil => intro a b; rfl
  | cons pr rest ih =>
    intro a b
    simp only [List.foldl_cons]
    rw [replaceChar_append]
    exact ih _ _

theorem applyReplacements_append (a b : Str) :
    applyReplacements (a ++ b) = applyReplacements a ++ applyReplacements b :=
  foldRepl_append replacements a b

theorem replaceChar_no_op (p : Nat) (r : Str) (hp : 255 < p) :
    ∀ s : Str, (∀ c ∈ s, c ≤ 255) → replaceChar p r s = s := by
  intro s
  induction s with
  | nil => intro _; rfl
  | cons c t ih =>
    intro hs
    have hc : c ≤ 255 := hs c (List.mem_cons_self c t)
    have hne : c ≠ p := by omega
    have ht := ih (fun d hd => hs d (List.mem_cons_of_mem c hd))
    simp only [replaceChar, List.map_cons, List.flatten_cons, if_neg hne] at ht ⊢
    rw [ht]
    rfl

theorem foldRepl_no_op (rs : List (Nat × Str)) (hrs : ∀ pr ∈ rs, 255 < pr.1) :
    ∀ s : Str, (∀ c ∈ s, c ≤ 255) →
      rs.foldl (fun t pr => replaceChar pr.1 pr.2 t) s = s := by
  induction rs with
  | nil => intro s _; rfl
  | cons pr rest ih =>
    intro s hs
    simp only [List.foldl_cons]
    rw [replaceChar_no_op pr.1 pr.2 (hrs pr (List.mem_cons_self pr rest)) s hs]
    exact ih (fun q hq => hrs q (List.mem_cons_of_mem pr hq)) s hs

theorem applyReplacements_no_op (s : Str) (hs : ∀ c ∈ s, c ≤ 255) :
    applyReplacements s = s :=
  foldRepl_no_op replacements (by decide) s hs

theorem clean_text_fixed (s : Str) (hs : ∀ c ∈ s, c ≤ 255) :
    clean_text_for_pdf s = s := by
  by_cases h : s = []
  · simp [clean_text_for_pdf, h]
  · simp only [clean_text_for_pdf, if_neg h, applyReplacements_no_op s hs,
      if_pos hs]

theorem applyReplacements_singleton (c : Nat) :
    applyReplacements [c] = substTable c := by
  by_cases h1 : c = 0x2022
  · subst h1; decide
  by_cases h2 : c = 0x2013
  · subst h2; decide
  by_cases h3 : c = 0x2014
  · subst h3; decide
  by_cases h4 : c = 0x2018
  · subst h4; decide
  by_cases h5 : c = 0x2019
  · subst h5; decide
  by_cases h6 : c = 0x201C
  · subst h6; decide
  by_cases h7 : c = 0x201D
  · subst h7; decide
  by_cases h8 : c = 0x2026
  · subst h8; decide
  simp only [applyReplacements, replacements, List.foldl_cons, List.foldl_nil,
    replaceChar, List.map_cons, List.map_nil, List.flatten_cons,
    List.flatten_nil, List.append_nil, if_neg h1, if_neg h2, if_neg h3,
    if_neg h4, if_neg h5, if_neg h6, if_neg h7, if_neg h8, substTable]

theorem applyReplacements_eq_substTable (s : Str) :
    applyReplacements s = (s.map substTable).flatten := by
  induction s with
  | nil => rfl
  | cons c t ih =>
    have hsplit : (c :: t) = [c] ++ t := rfl
    rw [hsplit, applyReplacements_append, applyReplacements_singleton, ih]
    simp

theorem idxmaxAux_spec :
    ∀ (t : List ℚ) (best i : Nat) (bestv : ℚ),
      (idxmaxAux best bestv i t = best ∧ ∀ w ∈ t, w ≤ bestv)
      ∨ (∃ k w, t.get? k = some w ∧ idxmaxAux best bestv i t = i + k
          ∧ bestv < w ∧ (∀ u ∈ t, u ≤ w)
          ∧ (∀ j u, j < k → t.get? j = some u → u < w)) := by
  intro t
  induction t with
  | nil =>
    intro best i bestv
    left
    exact ⟨rfl, by simp⟩
  | cons v tl ih =>
    intro best i bestv
    by_cases hv : bestv < v
    · rcases ih i (i + 1) v with ⟨heq, hall⟩ | ⟨k, w, hget, heq, hlt, hall, hbef⟩
      · right
        refine ⟨0, v, rfl, ?_, hv, ?_, ?_⟩
        · simp only [idxmaxAux, if_pos hv, heq]
          omega
        · intro u hu
          rcases List.mem_cons.mp hu with rfl | hu
          · exact le_refl _
          · exact hall u hu
        · intro j u hj _
          omega
      · right
        refine ⟨k + 1, w, ?_, ?_, ?_, ?_, ?_⟩
        · simpa using hget
        · simp only [idxmaxAux, if_pos hv, heq]
          omega
        · exact lt_trans hv hlt
        · intro u hu
          rcases List.mem_cons.mp hu with rfl | hu
          · exact le_of_lt hlt
          · exact hall u hu
        · intro j u hj hg
          cases j with
          | zero =>
            simp at hg
            subst hg
            exact hlt
          | succ j' =>
            have hg' : tl.get? j' = some u := by simpa using hg
            exact hbef j' u (by omega) hg'
    · rcases ih best (i + 1) bestv with ⟨heq, hall⟩ | ⟨k, w, hget, heq, hlt, hall, hbef⟩
      · left
        constructor
        · simp only [idxmaxAux, if_neg hv, heq]
        · intro u hu
          rcases List.mem_cons.mp hu with rfl | hu
          · exact le_of_not_lt hv
          · exact hall u hu
      · right
        refine ⟨k + 1, w, ?_, ?_, hlt, ?_, ?_⟩
        · simpa using hget
        · simp only [idxmaxAux, if_neg hv, heq]
          omega
        · intro u hu
          rcases List.mem_cons.mp hu with rfl | hu
          · exact le_of_lt (lt_of_le_of_lt (le_of_not_lt hv) hlt)
          · exact hall u hu
        · intro j u hj hg
          cases j with
          | zero =>
            simp at hg
            subst hg
            exact lt_of_le_of_lt (le_of_not_lt hv) hlt
          | succ j' =>
            have hg' : tl.get? j' = some u := by simpa using hg
            exact hbef j' u (by omega) hg'

theorem idxmax_spec (l : List ℚ) (hl : l ≠ []) :
    ∃ r m, idxmax l = some r ∧ l.get? r = some m ∧ (∀ u ∈ l, u ≤ m)
      ∧ (∀ j u, j < r → l.get? j = some u → u < m) := by
  match l, hl with
  | v :: tl, _ =>
    rcases idxmaxAux_spec tl 0 1 v with ⟨heq, hall⟩ | ⟨k, w, hget, heq, hlt, hall, hbef⟩
    · refine ⟨0, v, ?_, rfl, ?_, ?_⟩
      · simp [idxmax, heq]
      · intro u hu
        rcases List.mem_cons.mp hu with rfl | hu
        · exact le_refl _
        · exact hall u hu
      · intro j u hj _
        omega
    · refine ⟨1 + k, w, ?_, ?_, ?_, ?_⟩
      · simp [idxmax, heq]
      · rw [show 1 + k = k + 1 by omega]
        simpa using hget
      · intro u hu
        rcases List.mem_cons.mp hu with rfl | hu
        · exact le_of_lt hlt
        · exact hall u hu
      · intro j u hj hg
        cases j with
        | zero =>
          simp at hg
          subst hg
          exact hlt
        | succ j' =>
          have hg' : tl.get? j' = some u := by simpa using hg
          exact hbef j' u (by omega) hg'

/-- A one-day sales dataset used as a concrete input. -/
def demoSales : List SalesRecord := [⟨⟨2024, 1, 1⟩, qmk 5000 1, 50, 35⟩]

/-- The spec's first example product (sales amount 1000). -/
def prodA : ProductRecord := ⟨strCodes "Product A", qmk 1000 1, 100, qmk 4 1⟩

/-- The spec's second example product (sales amount 2000). -/
def prodB : ProductRecord := ⟨strCodes "Product B", qmk 2000 1, 200, qmk 9 2⟩

/-- The spec's two-product example table. -/
def demoProducts : List ProductRecord := [prodA, prodB]

/-- A product whose name contains a raw bullet code point (U+2022). -/
def badProduct : ProductRecord :=
  ⟨strCodes "Widget " ++ [0x2022], qmk 1000 1, 10, qmk 4 1⟩

/-- A chart pair the document engine accepts. -/
def demoCharts : Charts := ⟨⟨[137, 80, 78, 71], true⟩, ⟨[137, 80, 78, 71], true⟩⟩

/-- A chart pair whose revenue-trend raster the document engine rejects. -/
def invalidCharts : Charts := ⟨⟨[], false⟩, ⟨[137, 80, 78, 71], true⟩⟩

/-- A concrete clock reading. -/
def demoTime : Timestamp := ⟨2024, 3, 5, 14, 7⟩

/-- A later clock reading (one minute after `demoTime`). -/
def demoTime2 : Timestamp := ⟨2024, 3, 5, 14, 8⟩

/-- A filesystem state in which every `os.remove` succeeds. -/
def allRemovesOk : Str → Bool := fun _ => true

/-- Concrete user notes with surrounding whitespace and typographic
characters. -/
def demoNotes : Str := strCodes "  See notes — ‘good’.  "

/-- C1: the claim says building a report with `products = []` completes
without raising.  The code instead raises: `product_data['Sales'].idxmax()`
on the empty product table (src/app.py line 132) throws
`ValueError: attempt to get argmax of an empty sequence`.  This theorem
evaluates the embedded builder at the failing input. -/
theorem C1_empty_products_raises :
    (generate_dashboard_pdf demoSales [] [] demoCharts demoTime
        allRemovesOk).1 = Except.error BuildError.emptyDataError := rfl

/-- C2: the sanitizer is total (it is a function of the embedding), every
code point of its output is Latin-1 encodable (at most 255), and empty and
null input are returned unchanged. -/
theorem C2_sanitizer_total :
    (∀ s : Str, ∀ c ∈ clean_text_for_pdf s, c ≤ 255)
    ∧ clean_text_for_pdf [] = []
    ∧ clean_text_opt none = none :=
  ⟨clean_text_le, rfl, rfl⟩

/-- C2 witness: the Latin-1 bound discharged at a concrete input. -/
theorem C2_sanitizer_total_witness :
    149 ∈ clean_text_for_pdf [0x2022] ∧ 149 ≤ 255 :=
  ⟨by decide, C2_sanitizer_total.1 [0x2022] 149 (by decide)⟩

/-- C3 counterexample: the claim says the bullet is replaced by `"*"`; the
code replaces it by `chr(149)` (code point 149, not 42). -/
theorem C3_bullet_not_asterisk_counterexample :
    clean_text_for_pdf [0x2022] = [149]
    ∧ clean_text_for_pdf [0x2022] ≠ strCodes "*" := by
  exact ⟨by decide, by decide⟩

/-- C3 amended: the sanitizer applies, for every input string, the fixed
literal substitutions bullet→chr(149), en-dash→"-", em-dash→"--", curly
single and double quotes→straight quotes, ellipsis→"..." as a simultaneous
per-code-point find/replace; sanitizing "Café — 100% ‘done’" yields
"Café -- 100% 'done'" (the é is retained, being Latin-1 encodable). -/
theorem C3_substitutions_amended :
    (∀ s : Str, applyReplacements s = (s.map substTable).flatten)
    ∧ substTable 0x2022 = [149]
    ∧ substTable 0x2013 = strCodes "-"
    ∧ substTable 0x2014 = strCodes "--"
    ∧ substTable 0x2018 = strCodes "'"
    ∧ substTable 0x2019 = strCodes "'"
    ∧ substTable 0x201C = strCodes "\""
    ∧ substTable 0x201D = strCodes "\""
    ∧ substTable 0x2026 = strCodes "..."
    ∧ clean_text_for_pdf (strCodes "Café — 100% ‘done’")
        = strCodes "Café -- 100% 'done'" :=
  ⟨applyReplacements_eq_substTable, by decide, by decide, by decide,
   by decide, by decide, by decide, by decide, by decide, by decide⟩

/-- C4: the sanitizer is idempotent: sanitizing an already sanitized
string returns it unchanged (its output is Latin-1-clean, and on
Latin-1-clean input no substitution applies and the encoding check
passes). -/
theorem C4_sanitizer_idempotent (s : Str) :
    clean_text_for_pdf (clean_text_for_pdf s) = clean_text_for_pdf s :=
  clean_text_fixed _ (clean_text_le s)

/-- C5: for every non-empty product table, the product named in the
executive summary is one with maximal sales amount, and every strictly
earlier product has strictly smaller sales (first occurrence wins on
ties); on the spec's two-product example the summary names "Product B". -/
theorem C5_top_product_first_max :
    (∀ ps : List ProductRecord, ps ≠ [] →
      ∃ i p, ps.get? i = some p ∧ top_product ps = some p.product
        ∧ (∀ q ∈ ps, q.sales ≤ p.sales)
        ∧ (∀ j q, j < i → ps.get? j = some q → q.sales < p.sales))
    ∧ top_product demoProducts = some (strCodes "Product B")
    ∧ summary_text demoSales demoProducts ≠ none
    ∧ (strCodes "Product B").isSuffixOf
        ((summary_text demoSales demoProducts).getD []) = true := by
  refine ⟨?_, by decide, by decide, by decide⟩
  intro ps hps
  have hmap : ps.map (fun p => p.sales) ≠ [] := by
    simpa using hps
  rcases idxmax_spec _ hmap with ⟨r, m, hidx, hget, hall, hbef⟩
  rw [List.get?_map] at hget
  rcases Option.map_eq_some'.mp hget with ⟨p, hp, hm⟩
  refine ⟨r, p, hp, ?_, ?_, ?_⟩
  · unfold top_product
    rw [hidx]
    show (ps.get? r).map (fun p => p.product) = some p.product
    rw [hp]
    rfl
  · intro q hq
    have hqm : q.sales ∈ ps.map (fun p => p.sales) := List.mem_map_of_mem _ hq
    have := hall _ hqm
    rwa [← hm] at this
  · intro j q hj hq
    have hjq : (ps.map (fun p => p.sales)).get? j = some q.sales := by
      rw [List.get?_map, hq]
      rfl
    have := hbef j q.sales hj hjq
    rwa [← hm] at this

/-- C5 witness: the first-max property discharged on a concrete singleton
table. -/
theorem C5_top_product_first_max_witness :
    ∃ i p, [prodA].get? i = some p ∧ top_product [prodA] = some p.product
      ∧ (∀ q ∈ [prodA], q.sales ≤ p.sales)
      ∧ (∀ j q, j < i → [prodA].get? j = some q → q.sales < p.sales) :=
  C5_top_product_first_max.1 [prodA] (by decide)

/-- C6 counterexample: the claim says every piece of free text is passed
through the sanitizer before insertion, but the executive summary
interpolates the raw top product name: with a product name containing a
bullet code point, the document contains an element whose text is not
fixed by the sanitizer, hence was not sanitized (sanitizer output is
always a fixed point, by idempotence). -/
theorem C6_raw_summary_text_counterexample :
    ∃ e ∈ builtElems (generate_dashboard_pdf demoSales [badProduct] []
        demoCharts demoTime allRemovesOk),
      elemText e ≠ clean_text_for_pdf (elemText e) := by
  decide

/-- C6 amended: table product names and stripped user notes are sanitized
with `clean_text_for_pdf` before insertion, but the executive summary text
(which embeds the raw top product name) is inserted without sanitization. -/
theorem C6_partial_sanitization_amended :
    ∀ (sales : List SalesRecord) (products : List ProductRecord)
      (notes : Str) (charts : Charts) (now : Timestamp) (rok : Str → Bool)
      (elems : List Elem),
      (generate_dashboard_pdf sales products notes charts now rok).1
          = Except.ok elems →
      (∀ p ∈ products, Elem.cell (clean_text_for_pdf p.product) ∈ elems)
      ∧ (notes ≠ [] → pyStrip notes ≠ [] →
          Elem.multiCell (clean_text_for_pdf (pyStrip notes)) ∈ elems) := by
  intro sales products notes charts now rok elems h
  cases hsum : summary_text sales products with
  | none =>
    rw [generate_dashboard_pdf, hsum] at h
    simp at h
  | some stext =>
    by_cases h1 : charts.revenue_trend.valid
    · by_cases h2 : charts.product_sales.valid
      · rw [generate_dashboard_pdf, hsum] at h
        simp only [if_pos h1, if_pos h2, Except.ok.injEq] at h
        subst h
        constructor
        · intro p hp
          have hrow : Elem.cell (clean_text_for_pdf p.product) ∈ productRow p := by
            simp [productRow]
          have hflat : Elem.cell (clean_text_for_pdf p.product)
              ∈ (products.map productRow).flatten :=
            List.mem_flatten.mpr ⟨productRow p, List.mem_map_of_mem _ hp, hrow⟩
          apply List.mem_cons_of_mem
          apply List.mem_cons_of_mem
          simp only [bodyElems, List.append_assoc, List.mem_append]
          tauto
        · intro hn1 hn2
          apply List.mem_cons_of_mem
          apply List.mem_cons_of_mem
          simp only [bodyElems, List.append_assoc, List.mem_append]
          have : Elem.multiCell (clean_text_for_pdf (pyStrip notes))
              ∈ (if notes ≠ [] ∧ pyStrip notes ≠ [] then notesElems notes
                 else []) := by
            rw [if_pos ⟨hn1, hn2⟩]
            simp [notesElems]
          tauto
      · rw [generate_dashboard_pdf, hsum] at h
        simp [if_pos h1, if_neg h2] at h
    · rw [generate_dashboard_pdf, hsum] at h
      simp [if_neg h1] at h

/-- C6 amended witness: both sanitized insertions discharged at a concrete
successful build. -/
theorem C6_partial_sanitization_amended_witness :
    Elem.cell (clean_text_for_pdf prodA.product)
      ∈ builtElems (generate_dashboard_pdf demoSales demoProducts demoNotes
          demoCharts demoTime allRemovesOk)
    ∧ Elem.multiCell (clean_text_for_pdf (pyStrip demoNotes))
      ∈ builtElems (generate_dashboard_pdf demoSales demoProducts demoNotes
          demoCharts demoTime allRemovesOk) := by
  have h := C6_partial_sanitization_amended demoSales demoProducts demoNotes
    demoCharts demoTime allRemovesOk
    (builtElems (generate_dashboard_pdf demoSales demoProducts demoNotes
      demoCharts demoTime allRemovesOk)) rfl
  exact ⟨h.1 prodA (by decide), h.2 (by decide) (by decide)⟩

/-- The clock readings of two consecutive footer renderings that straddle
a minute boundary. -/
def footerTimeA : Timestamp := ⟨2024, 3, 5, 23, 59⟩

/-- The second of the two straddling clock readings. -/
def footerTimeB : Timestamp := ⟨2024, 3, 6, 0, 0⟩

/-- A clock whose first two readings differ. -/
def driftingClock : Nat → Timestamp :=
  fun i => if i = 0 then footerTimeA else footerTimeB

/-- C7 counterexample: the claim says all pages' footers carry the same
single construction moment; but `footer()` calls `datetime.now()` afresh
on each page, so with a clock that advances across a minute boundary no
single timestamp matches both footers. -/
theorem C7_footer_single_moment_counterexample :
    ¬ ∃ t : Timestamp, renderFooters driftingClock 2
        = [DashboardPDF.footer 1 t, DashboardPDF.footer 2 t] := by
  rintro ⟨t, h⟩
  have hr : renderFooters driftingClock 2
      = [DashboardPDF.footer 1 footerTimeA, DashboardPDF.footer 2 footerTimeB] := by
    rfl
  rw [hr] at h
  simp only [List.cons.injEq, and_true] at h
  obtain ⟨h1, h2⟩ := h
  have t1 : footerStrftime footerTimeA = footerStrftime t := by
    have htext := congrArg FooterCell.text h1
    simp only [DashboardPDF.footer] at htext
    exact List.append_cancel_left htext
  have t2 : footerStrftime footerTimeB = footerStrftime t := by
    have htext := congrArg FooterCell.text h2
    simp only [DashboardPDF.footer] at htext
    exact List.append_cancel_left htext
  have : footerStrftime footerTimeA = footerStrftime footerTimeB :=
    t1.trans t2.symm
  exact absurd this (by decide)

/-- C7 amended: every page of the document carries a centered ('C'),
italic ('I'), 8-point footer cell reading "Page {n} - Generated on
{timestamp}" with the timestamp formatted YYYY-MM-DD HH:MM, where the
timestamp is a fresh `datetime.now()` reading taken when that page's
footer is rendered (so it may differ between pages). -/
theorem C7_footer_per_page_now_amended :
    ∀ (clock : Nat → Timestamp) (n i : Nat), i < n →
      (renderFooters clock n).get? i
          = some (DashboardPDF.footer (i + 1) (clock i))
      ∧ (DashboardPDF.footer (i + 1) (clock i)).align = strCodes "C"
      ∧ (DashboardPDF.footer (i + 1) (clock i)).fontStyle = strCodes "I"
      ∧ (DashboardPDF.footer (i + 1) (clock i)).fontSize = qmk 8 1
      ∧ (DashboardPDF.footer (i + 1) (clock i)).text
          = strCodes "Page " ++ natStr (i + 1) ++ strCodes " - Generated on "
            ++ footerStrftime (clock i) := by
  intro clock n i hi
  refine ⟨?_, rfl, rfl, rfl, rfl⟩
  rw [renderFooters, List.get?_map, List.get?_range hi]
  rfl

/-- C7 amended witness: the footer shape discharged at page 1 of a
one-page document. -/
theorem C7_footer_per_page_now_amended_witness :
    (renderFooters driftingClock 1).get? 0
      = some (DashboardPDF.footer 1 (driftingClock 0)) :=
  (C7_footer_per_page_now_amended driftingClock 1 0 (by decide)).1

/-- C8 counterexample: the claim says every temp chart file is deleted
before the build call returns on every execution path; but the cleanup
loop is not in a `finally`: when the document engine rejects the first
chart after `temp_revenue_chart.png` has been written, the exception
propagates and the file is left on disk. -/
theorem C8_leaked_temp_file_counterexample :
    (generate_dashboard_pdf demoSales demoProducts [] invalidCharts demoTime
        allRemovesOk).2 = [tempRevenueChart]
    ∧ (generate_dashboard_pdf demoSales demoProducts [] invalidCharts
        demoTime allRemovesOk).1 = Except.error BuildError.imageError :=
  ⟨rfl, rfl⟩

/-- C8 amended: on the successful execution path the build deletes both
temp chart files before returning (file set empty when the deletes
succeed), and a failure of the delete step itself is swallowed and
non-fatal (the build outcome does not depend on whether the removes
succeed); on a failure path reached after a temp file was written, the
cleanup loop is not reached and the file may persist. -/
theorem C8_cleanup_best_effort_amended :
    ∀ (sales : List SalesRecord) (products : List ProductRecord)
      (notes : Str) (charts : Charts) (now : Timestamp)
      (rok rok' : Str → Bool),
      (generate_dashboard_pdf sales products notes charts now rok).1
        = (generate_dashboard_pdf sales products notes charts now rok').1
      ∧ (∀ elems,
          (generate_dashboard_pdf sales products notes charts now rok).1
            = Except.ok elems →
          (generate_dashboard_pdf sales products notes charts now
            (fun _ => true)).2 = []) := by
  intro sales products notes charts now rok rok'
  constructor
  · cases hsum : summary_text sales products with
    | none => rw [generate_dashboard_pdf, hsum, generate_dashboard_pdf, hsum]
    | some stext =>
      rw [generate_dashboard_pdf, hsum, generate_dashboard_pdf, hsum]
      by_cases h1 : charts.revenue_trend.valid
      · by_cases h2 : charts.product_sales.valid
        · simp [h1, h2]
        · simp [h1, h2]
      · simp [h1]
  · intro elems h
    cases hsum : summary_text sales products with
    | none =>
      rw [generate_dashboard_pdf, hsum] at h
      simp at h
    | some stext =>
      by_cases h1 : charts.revenue_trend.valid
      · by_cases h2 : charts.product_sales.valid
        · rw [generate_dashboard_pdf, hsum]
          simp only [if_pos h1, if_pos h2]
          decide
        · rw [generate_dashboard_pdf, hsum] at h
          simp [if_pos h1, if_neg h2] at h
      · rw [generate_dashboard_pdf, hsum] at h
        simp [if_neg h1] at h

/-- C8 amended witness: the cleanup properties discharged at a concrete
successful build. -/
theorem C8_cleanup_best_effort_amended_witness :
    (generate_dashboard_pdf demoSales demoProducts [] demoCharts demoTime
        (fun _ => false)).1
      = (generate_dashboard_pdf demoSales demoProducts [] demoCharts
          demoTime allRemovesOk).1
    ∧ (generate_dashboard_pdf demoSales demoProducts [] demoCharts demoTime
        (fun _ => true)).2 = [] := by
  have h := C8_cleanup_best_effort_amended demoSales demoProducts []
    demoCharts demoTime (fun _ => false) allRemovesOk
  exact ⟨h.1, h.2 (builtElems (generate_dashboard_pdf demoSales demoProducts
    [] demoCharts demoTime (fun _ => false))) rfl⟩

/-- C9: the serializer maps each of the document engine's three internal
representations (text string, byte string, bytearray) to the underlying
byte buffer, and does not raise on any well-formed (Latin-1-clean)
engine output. -/
theorem C9_serializer_normalizes (o : PdfOutput) (h : WellFormedPdfOutput o) :
    get_pdf_bytes o = Except.ok (pdfOutputData o) := by
  cases o with
  | str s =>
    simp only [get_pdf_bytes, pdfOutputData]
    rw [if_pos]
    exact h
  | bytes b => rfl
  | bytearray b => rfl

/-- C9 witness: the serializer discharged on a concrete text-string
output. -/
theorem C9_serializer_normalizes_witness :
    get_pdf_bytes (PdfOutput.str (strCodes "%PDF-1.3 demo"))
      = Except.ok (pdfOutputData (PdfOutput.str (strCodes "%PDF-1.3 demo"))) :=
  C9_serializer_normalizes _ (by unfold WellFormedPdfOutput; decide)

/-- C10: the build is a pure function of its inputs and the clock reading:
two successful builds from identical inputs produce element lists that
agree everywhere except the single timestamp cell ("Report generated on:
..."), i.e. both factor over a common prefix and suffix around it. -/
theorem C10_deterministic_up_to_timestamp :
    ∀ (sales : List SalesRecord) (products : List ProductRecord)
      (notes : Str) (charts : Charts) (rok : Str → Bool)
      (t t' : Timestamp) (elems elems' : List Elem),
      (generate_dashboard_pdf sales products notes charts t rok).1
          = Except.ok elems →
      (generate_dashboard_pdf sales products notes charts t' rok).1
          = Except.ok elems' →
      ∃ pre post,
        elems = pre
          ++ Elem.cell (strCodes "Report generated on: " ++ fmtLong t) :: post
        ∧ elems' = pre
          ++ Elem.cell (strCodes "Report generated on: " ++ fmtLong t') :: post := by
  intro sales products notes charts rok t t' elems elems' h h'
  cases hsum : summary_text sales products with
  | none =>
    rw [generate_dashboard_pdf, hsum] at h
    simp at h
  | some stext =>
    by_cases h1 : charts.revenue_trend.valid
    · by_cases h2 : charts.product_sales.valid
      · rw [generate_dashboard_pdf, hsum] at h h'
        simp only [if_pos h1, if_pos h2, Except.ok.injEq] at h h'
        subst h
        subst h'
        exact ⟨[Elem.cell (strCodes "Business Dashboard Report")],
          bodyElems products notes stext, rfl, rfl⟩
      · rw [generate_dashboard_pdf, hsum] at h
        simp [if_pos h1, if_neg h2] at h
    · rw [generate_dashboard_pdf, hsum] at h
      simp [if_neg h1] at h

/-- C10 witness: the factorization discharged at two concrete builds one
minute apart. -/
theorem C10_deterministic_up_to_timestamp_witness :
    ∃ pre post,
      builtElems (generate_dashboard_pdf demoSales demoProducts [] demoCharts
          demoTime allRemovesOk)
        = pre ++ Elem.cell (strCodes "Report generated on: "
            ++ fmtLong demoTime) :: post
      ∧ builtElems (generate_dashboard_pdf demoSales demoProducts [] demoCharts
          demoTime2 allRemovesOk)
        = pre ++ Elem.cell (strCodes "Report generated on: "
            ++ fmtLong demoTime2) :: post :=
  C10_deterministic_up_to_timestamp demoSales demoProducts [] demoCharts
    allRemovesOk demoTime demoTime2
    (builtElems (generate_dashboard_pdf demoSales demoProducts [] demoCharts
      demoTime allRemovesOk))
    (builtElems (generate_dashboard_pdf demoSales demoProducts [] demoCharts
      demoTime2 allRemovesOk)) rfl rfl
